import Mathlib

/-!
Verification development for the whatomate real-time voice-call subsystem.

The Go source is shallowly embedded: pure decision logic becomes Lean
functions, stateful handlers become explicit state-passing functions, and
machine integers are modelled as Nat (with explicit reduction modulo 2^16
and 2^32 where the Go code relies on fixed-width wraparound).  Each
definition cites the Go file and function it embeds.
-/

namespace Whatomate

/-! ## Shared data model (internal/models, as used by the calling package) -/

/-- Call lifecycle status, `models.CallStatus` (values used by
`internal/calling/session.go` and `internal/handlers/call_webhook.go`). -/
inductive CallStatus where
  | ringing
  | answered
  | completed
  | missed
  | rejected
  | failed
  deriving DecidableEq, Repr

/-- Transfer sub-state of a live call, `models.CallTransferStatus`
(values used by `internal/calling/session.go`). -/
inductive CallTransferStatus where
  | noTransfer
  | waiting
  | connected
  | resumed
  deriving DecidableEq, Repr

/-! ## C9: call-permission expiry — `GetCallPermission`
(src/unnamed/part_005, lines 180-210) -/

/-- Status of a `models.CallPermission` consent record. -/
inductive CallPermissionStatus where
  | pending
  | accepted
  | expired
  deriving DecidableEq, Repr

/-- Persisted call-permission record; `RespondedAt` is an optional
timestamp, modelled in nanoseconds like a Go `time.Time`/`time.Duration`. -/
structure CallPermission where
  status : CallPermissionStatus
  respondedAt : Option Int
  deriving DecidableEq, Repr

/-- Nanoseconds in one hour, the Go constant `time.Hour`. -/
def goHour : Int := 3600000000000

/-- Expiry core of handler `GetCallPermission`
(src/unnamed/part_005, lines 201-207): if the permission is `accepted`,
has a response timestamp, and more than 72 hours have elapsed since it
(`time.Since(*permission.RespondedAt) > 72*time.Hour`), the in-memory
record is switched to `expired` and the same status is persisted with a
DB update.  Returns the record sent in the response envelope and the
status written back to the database, if any. -/
def GetCallPermission (p : CallPermission) (now : Int) :
    CallPermission × Option CallPermissionStatus :=
  if p.status = CallPermissionStatus.accepted then
    match p.respondedAt with
    | some t =>
        if now - t > 72 * goHour then
          ({ p with status := CallPermissionStatus.expired },
            some CallPermissionStatus.expired)
        else (p, none)
    | none => (p, none)
  else (p, none)

/-! ## C7: `AudioPlayer.PlayFile` over an OGG/Opus container
(second document of src/internal/calling/bridge.go, lines 101-160 and
237-244; the OGG pages are the successive `ogg.ParseNextPage` results). -/

/-- RTP packet header and payload as constructed by `PlayFile`
(`rtp.Packet` fields that the source sets); `sequenceNumber` is a
uint16 and `timestamp` a uint32, kept as Nat below the respective
moduli. -/
structure RTPPacket where
  version : Nat
  payloadType : Nat
  sequenceNumber : Nat
  timestamp : Nat
  ssrc : Nat
  payload : List Nat
  deriving DecidableEq, Repr

/-- ASCII bytes of the string `OpusHead`. -/
def opusHeadBytes : List Nat := [0x4F, 0x70, 0x75, 0x73, 0x48, 0x65, 0x61, 0x64]

/-- ASCII bytes of the string `OpusTags`. -/
def opusTagsBytes : List Nat := [0x4F, 0x70, 0x75, 0x73, 0x54, 0x61, 0x67, 0x73]

/-- Predicate `isOpusHeader` (bridge.go, lines 238-244): a payload is a
header page when it has at least 8 bytes and its first 8 bytes read
`OpusHead` or `OpusTags`. -/
def isOpusHeader (payload : List Nat) : Bool :=
  if payload.length < 8 then false
  else payload.take 8 == opusHeadBytes || payload.take 8 == opusTagsBytes

/-- Samples per 20ms Opus frame at 48kHz, constant `samplesPerFrame`
in `PlayFile` (bridge.go, line 114). -/
def samplesPerFrame : Nat := 960

/-- Ticker period of the playback loop in milliseconds
(`time.NewTicker(20 * time.Millisecond)`, bridge.go line 119). -/
def playFileTickerMs : Nat := 20

/-- Opus payload type negotiated by `createPeerConnection`
(`RegisterCodec` with `PayloadType: 111`, src/unnamed/part_000
lines 178-185), which `PlayFile` stamps on every packet. -/
def negotiatedOpusPayloadType : Nat := 111

/-- Loop body of `PlayFile` (bridge.go, lines 122-159), one recursion per
ticker tick: a header page is skipped without emitting anything; any
other page is sent as an RTP packet carrying the running uint16 sequence
number and uint32 timestamp, after which the counters advance by 1 and
`samplesPerFrame` with fixed-width wraparound. -/
def playFileGo : List (List Nat) → Nat → Nat → List RTPPacket
  | [], _, _ => []
  | page :: rest, seq, ts =>
      if isOpusHeader page then playFileGo rest seq ts
      else
        { version := 2
          payloadType := negotiatedOpusPayloadType
          sequenceNumber := seq
          timestamp := ts
          ssrc := 1
          payload := page } :: playFileGo rest ((seq + 1) % 65536) ((ts + samplesPerFrame) % 4294967296)

/-- Function `PlayFile` (bridge.go, lines 101-160) viewed as the packet
stream it writes to the track for a given sequence of OGG pages: both
counters start at zero (`var sequenceNumber uint16; var timestamp
uint32`). -/
def PlayFile (pages : List (List Nat)) : List RTPPacket :=
  playFileGo pages 0 0

/-! ## Transfer queue data (models.AgentTransfer, as exercised by the
tests in src/unnamed/part_006) -/

/-- Status of an `AgentTransfer` queue row.  `active` and `resumed` appear
in the tests (part_006); `abandoned` and `completed` are the terminal
states the spec gives for caller hangup and normal transfer end. -/
inductive AgentTransferStatus where
  | active
  | resumed
  | abandoned
  | completed
  deriving DecidableEq, Repr

/-- Persisted queue row `models.AgentTransfer`, with the fields the claims
touch: identity, scoping, status, optional assignee/team and the
`transferred_at` timestamp (monotone clock, modelled as Nat). -/
structure AgentTransfer where
  tid : Nat
  orgID : Nat
  contactID : Nat
  status : AgentTransferStatus
  agentID : Option Nat
  teamID : Option Nat
  transferredAt : Nat
  deriving DecidableEq, Repr

/-! ## Session registry (internal/calling/session.go) -/

/-- In-memory `CallSession` (session.go lines 19-56), restricted to the
fields the claims read or that `cleanupSession` inspects.  Pointer fields
of the Go struct become Booleans recording whether the pointer is set;
`dtmfBufferNonNil` records that the `DTMFBuffer` channel was allocated.
The Go zero value of `models.CallTransferStatus` is rendered as
`noTransfer`. -/
structure CallSession where
  callLogID : Nat
  status : CallStatus
  transferStatus : CallTransferStatus
  transferID : Nat
  ivrFlowLoaded : Bool
  dtmfBufferNonNil : Bool
  bridgeSet : Bool
  holdPlayerSet : Bool
  transferCancelSet : Bool
  agentPCSet : Bool
  waPeerConnSet : Bool
  peerConnectionSet : Bool
  deriving DecidableEq, Repr

/-- Lookup in an association-list model of a Go map (`m.sessions[k]`). -/
def mapLookup {α : Type} (reg : List (String × α)) (k : String) : Option α :=
  (reg.find? (fun e => e.1 == k)).map (fun e => e.2)

/-- Deletion from the map model (`delete(m.sessions, k)`): every binding
for the key disappears, as with a Go map. -/
def mapDelete {α : Type} (reg : List (String × α)) (k : String) :
    List (String × α) :=
  reg.filter (fun e => e.1 != k)

/-- Assignment in the map model (`m.sessions[k] = v`): the key is bound to
exactly the new value afterwards. -/
def mapInsert {α : Type} (reg : List (String × α)) (k : String) (v : α) :
    List (String × α) :=
  (k, v) :: mapDelete reg k

/-- Side effects performed by `cleanupSession` (session.go lines 210-248)
while tearing a session down, in program order. -/
inductive CleanupAction where
  | stopBridge
  | stopHoldPlayer
  | invokeTransferCancel
  | closeAgentPC
  | closeWAPeerConn
  | closePeerConnection
  | closeDTMF
  deriving DecidableEq, Repr

/-- Teardown side effects of `cleanupSession` for one session
(session.go lines 213-245): each guarded action fires only when the
corresponding field is set, and the DTMF channel is closed when the
buffer is non-nil. -/
def cleanupActions (s : CallSession) : List CleanupAction :=
  (if s.bridgeSet then [CleanupAction.stopBridge] else []) ++
  (if s.holdPlayerSet then [CleanupAction.stopHoldPlayer] else []) ++
  (if s.transferCancelSet then [CleanupAction.invokeTransferCancel] else []) ++
  (if s.agentPCSet then [CleanupAction.closeAgentPC] else []) ++
  (if s.waPeerConnSet then [CleanupAction.closeWAPeerConn] else []) ++
  (if s.peerConnectionSet then [CleanupAction.closePeerConnection] else []) ++
  (if s.dtmfBufferNonNil then [CleanupAction.closeDTMF] else [])

/-- Function `cleanupSession` (session.go lines 198-249): under the
registry lock the session is looked up and removed from the map; when it
was absent the function returns at once with no side effects, otherwise
the teardown actions run on the removed session.  The registry lock makes
the lookup-and-delete atomic, so the model removes and tears down in one
step. -/
def cleanupSession (reg : List (String × CallSession)) (callID : String) :
    List (String × CallSession) × List CleanupAction :=
  match mapLookup reg callID with
  | none => (reg, [])
  | some s => (mapDelete reg callID, cleanupActions s)

/-- Session built by `HandleIncomingCall` (session.go lines 101-120):
status ringing, a freshly allocated 32-slot DTMF buffer, a fresh
`BridgeStarted` channel, the IVR flow loaded when the call log carries
one, and every transfer/outgoing pointer still nil. -/
def newIncomingSession (callLogID : Nat) (ivrFlowAssigned : Bool) :
    CallSession :=
  { callLogID := callLogID
    status := CallStatus.ringing
    transferStatus := CallTransferStatus.noTransfer
    transferID := 0
    ivrFlowLoaded := ivrFlowAssigned
    dtmfBufferNonNil := true
    bridgeSet := false
    holdPlayerSet := false
    transferCancelSet := false
    agentPCSet := false
    waPeerConnSet := false
    peerConnectionSet := false }

/-- Function `HandleIncomingCall` (session.go lines 100-136): builds the
new session, stores it in the map under the call ID (a plain map
assignment, replacing any existing binding), performs no teardown of any
kind, and spawns WebRTC negotiation exactly when an SDP offer came with
the event.  Returns the new registry, the teardown actions performed
(none), and whether negotiation was spawned. -/
def HandleIncomingCall (reg : List (String × CallSession)) (callID : String)
    (callLogID : Nat) (ivrFlowAssigned : Bool) (sdpOffer : String) :
    List (String × CallSession) × List CleanupAction × Bool :=
  (mapInsert reg callID (newIncomingSession callLogID ivrFlowAssigned),
    [], sdpOffer != "")

/-- Modelled from the spec: `HandleCallerHangupDuringTransfer` is absent
from the available source (only its call site in `HandleCallEvent` is);
per the spec, a caller hangup while the transfer is waiting logs the
transfer as abandoned and releases the queue entry, so the row leaves the
pickable queue and no bridge is ever started for it.  The model marks the
row abandoned; it takes and releases no session lock. -/
def HandleCallerHangupDuringTransfer (q : List AgentTransfer)
    (transferID : Nat) : List AgentTransfer :=
  q.map (fun t =>
    if t.tid == transferID then
      { t with status := AgentTransferStatus.abandoned, agentID := none }
    else t)

/-- Outcome of one `HandleCallEvent` invocation: the registry and queue
afterwards, whether an audio bridge was started on this path, whether a
`cleanupSession` goroutine was spawned, which transfer `EndTransfer` was
invoked for, and whether the invocation hit a run-time panic. -/
structure EventOutcome where
  sessions : List (String × CallSession)
  queue : List AgentTransfer
  startedBridge : Bool
  spawnedCleanup : Bool
  endTransferInvoked : Option Nat
  panicked : Bool
  deriving DecidableEq, Repr

/-- Function `HandleCallEvent` (session.go lines 139-171).  The handler
locks the session mutex and registers a deferred unlock.  On the
`ended`/`missed`/`unanswered` branch with `TransferStatus == waiting` it
explicitly unlocks, calls `HandleCallerHangupDuringTransfer` and
returns; with `TransferStatus == connected` it explicitly unlocks, calls
`EndTransfer` and returns.  On both returns the deferred unlock then
runs against an already-unlocked `sync.Mutex`, which is a Go run-time
panic (`sync: unlock of unlocked mutex`) — recorded in `panicked`.  The
remaining paths keep the lock balanced. -/
def HandleCallEvent (reg : List (String × CallSession))
    (q : List AgentTransfer) (callID : String) (event : String) :
    EventOutcome :=
  match mapLookup reg callID with
  | none => ⟨reg, q, false, false, none, false⟩
  | some s =>
      if event = "in_call" then
        ⟨mapInsert reg callID { s with status := CallStatus.answered },
          q, false, false, none, false⟩
      else if event = "ended" ∨ event = "missed" ∨ event = "unanswered" then
        if s.transferStatus = CallTransferStatus.waiting then
          ⟨reg, HandleCallerHangupDuringTransfer q s.transferID,
            false, false, none, true⟩
        else if s.transferStatus = CallTransferStatus.connected then
          ⟨reg, q, false, false, some s.transferID, true⟩
        else
          ⟨mapInsert reg callID { s with status := CallStatus.completed },
            q, false, true, none, false⟩
      else ⟨reg, q, false, false, none, false⟩

/-! ## Stop channels (AudioBridge.Stop, bridge.go lines 63-70, and
AudioPlayer.Stop, audio.go lines 61-68; both bodies are the guarded
close idiom `select { case <-stop: default: close(stop) }`). -/

/-- State of a `stop` channel shared by concurrent `Stop` invocations:
whether it is closed, how many `close` calls have executed, and whether
some invocation panicked (Go panics on closing a closed channel). -/
structure StopChannelState where
  closed : Bool
  closeCount : Nat
  panicked : Bool
  deriving DecidableEq, Repr

/-- Program counter of one in-flight `Stop` invocation.  The `select`
statement and the `close` call are two distinct atomic operations in Go;
nothing makes the pair atomic. -/
inductive StopPC where
  | beforeSelect
  | committedClose
  | done
  deriving DecidableEq, Repr

/-- Small-step semantics of one `Stop` invocation: the `select` reads the
channel state (a closed channel makes `case <-stop` fire, so the call
returns; an open one commits to the `default` branch), and the committed
`close` then closes the channel — panicking when another invocation
closed it in between. -/
def stopStep (st : StopChannelState) (pc : StopPC) :
    StopChannelState × StopPC :=
  match pc with
  | StopPC.beforeSelect =>
      if st.closed then (st, StopPC.done) else (st, StopPC.committedClose)
  | StopPC.committedClose =>
      if st.closed then ({ st with panicked := true }, StopPC.done)
      else ({ st with closed := true, closeCount := st.closeCount + 1 },
        StopPC.done)
  | StopPC.done => (st, StopPC.done)

/-- Interleaved execution of two `Stop` invocations on one channel: the
schedule lists which invocation takes the next atomic step (`true` for
the first). -/
def runTwoStops : List Bool → StopChannelState → StopPC → StopPC →
    StopChannelState
  | [], st, _, _ => st
  | b :: rest, st, p1, p2 =>
      if b then
        let r := stopStep st p1
        runTwoStops rest r.1 r.2 p2
      else
        let r := stopStep st p2
        runTwoStops rest r.1 p1 r.2

/-- Channel state right after `NewAudioBridge`/`NewAudioPlayer`
allocates the `stop` channel: open, never closed, no panic. -/
def freshStopChannel : StopChannelState :=
  { closed := false, closeCount := 0, panicked := false }

/-! ## Call webhook processing
(internal/handlers/call_webhook.go, `processCallWebhook`) -/

/-- Persisted `models.CallLog` row, restricted to the fields
`processCallWebhook` writes; timestamps are nanoseconds. -/
structure CallLogRec where
  status : CallStatus
  startedAt : Option Int
  answeredAt : Option Int
  endedAt : Option Int
  duration : Int
  deriving DecidableEq, Repr

/-- Nanoseconds in one second (`time.Second`), used by the duration
computation `int(now.Sub(*callLog.AnsweredAt).Seconds())`. -/
def goSecond : Int := 1000000000

/-- Event dispatch of `processCallWebhook` for the incoming-call flow
(call_webhook.go lines 63-182), acting on the stored call log for the
incoming call ID: `ringing` creates a fresh log, `in_call` marks it
answered, `ended` marks it completed with the computed duration and
notifies the call manager (`EndCall`), `missed`/`unanswered` mark it
missed, and unknown events only log.  A DB update with no matching row is
a no-op.  When the event carries an error payload, the log is afterwards
marked failed with `ended_at` set (lines 174-182).  Returns the stored
row afterwards and whether `CallManager.EndCall` was invoked. -/
def processCallWebhook (event : String) (callLog : Option CallLogRec)
    (now : Int) (errPresent : Bool) : Option CallLogRec × Bool :=
  let dispatched : Option CallLogRec × Bool :=
    match event, callLog with
    | "ringing", _ =>
        (some { status := CallStatus.ringing, startedAt := some now,
                answeredAt := none, endedAt := none, duration := 0 }, false)
    | "in_call", some l =>
        (some { l with status := CallStatus.answered, answeredAt := some now },
          false)
    | "ended", some l =>
        (some { l with
            status := CallStatus.completed
            endedAt := some now
            duration := match l.answeredAt with
              | some t => (now - t) / goSecond
              | none => 0 }, true)
    | "missed", some l =>
        (some { l with status := CallStatus.missed, endedAt := some now },
          false)
    | "unanswered", some l =>
        (some { l with status := CallStatus.missed, endedAt := some now },
          false)
    | _, l => (l, false)
  if errPresent then
    (dispatched.1.map (fun l =>
        { l with status := CallStatus.failed, endedAt := some now }),
      dispatched.2)
  else dispatched

/-! ## Inbound WebRTC negotiation
(src/unnamed/part_000, `negotiateWebRTC`, lines 14-162, matching the
3-argument `PreAcceptCall` of src/pkg/whatsapp/call.go) -/

/-- Outcome oracle for the fallible steps of `negotiateWebRTC`, in the
order the source executes them: the provider pre-accept call, peer
connection creation, local track creation, `AddTrack`, setting the
remote offer, creating the answer, setting the local description, the
ICE-gathering wait (against the 30s context), the nil check on the
local description, and the provider accept call. -/
structure NegOracle where
  preAcceptFails : Bool
  createPCFails : Bool
  createTrackFails : Bool
  addTrackFails : Bool
  setRemoteFails : Bool
  createAnswerFails : Bool
  setLocalFails : Bool
  iceGatherTimesOut : Bool
  localDescNil : Bool
  acceptFails : Bool
  deriving DecidableEq, Repr

/-- Provider-facing calls the negotiation path can issue through the
WhatsApp client (`PreAcceptCall`, `RejectCall`, `AcceptCall`,
`TerminateCall`). -/
inductive ProviderCall where
  | preAccept
  | reject
  | accept
  | terminate
  deriving DecidableEq, Repr

/-- Result of one `negotiateWebRTC` run: provider calls issued in order,
whether the session was removed from the registry by this path, the
session status written on success, and whether the IVR flow goroutine was
started. -/
structure NegResult where
  calls : List ProviderCall
  cleanupInvoked : Bool
  statusAfter : Option CallStatus
  ivrStarted : Bool
  deriving DecidableEq, Repr

/-- Function `negotiateWebRTC` (src/unnamed/part_000, lines 14-162) as a
function of which steps fail.  Every failure before the accept call logs
and issues `rejectCall` (lines 26-30, 33-38, 50-54, 56-61, 107-111,
114-119, 122-126, 130-137, 141-145) and returns; a failure of the
`AcceptCall` provider call only logs and returns (lines 147-150); on
success the session status becomes answered and the IVR goroutine starts
when a flow is loaded (lines 152-161).  No path of this function removes
the session from the registry. -/
def negotiateWebRTC (o : NegOracle) (hasIVRFlow : Bool) : NegResult :=
  if o.preAcceptFails then
    ⟨[ProviderCall.preAccept, ProviderCall.reject], false, none, false⟩
  else if o.createPCFails then
    ⟨[ProviderCall.preAccept, ProviderCall.reject], false, none, false⟩
  else if o.createTrackFails then
    ⟨[ProviderCall.preAccept, ProviderCall.reject], false, none, false⟩
  else if o.addTrackFails then
    ⟨[ProviderCall.preAccept, ProviderCall.reject], false, none, false⟩
  else if o.setRemoteFails then
    ⟨[ProviderCall.preAccept, ProviderCall.reject], false, none, false⟩
  else if o.createAnswerFails then
    ⟨[ProviderCall.preAccept, ProviderCall.reject], false, none, false⟩
  else if o.setLocalFails then
    ⟨[ProviderCall.preAccept, ProviderCall.reject], false, none, false⟩
  else if o.iceGatherTimesOut then
    ⟨[ProviderCall.preAccept, ProviderCall.reject], false, none, false⟩
  else if o.localDescNil then
    ⟨[ProviderCall.preAccept, ProviderCall.reject], false, none, false⟩
  else if o.acceptFails then
    ⟨[ProviderCall.preAccept, ProviderCall.accept], false, none, false⟩
  else
    ⟨[ProviderCall.preAccept, ProviderCall.accept], false,
      some CallStatus.answered, hasIVRFlow⟩

/-- Truth of "some step strictly before the provider accept call failed"
for an oracle. -/
def failedBeforeAccept (o : NegOracle) : Bool :=
  o.preAcceptFails || o.createPCFails || o.createTrackFails ||
  o.addTrackFails || o.setRemoteFails || o.createAnswerFails ||
  o.setLocalFails || o.iceGatherTimesOut || o.localDescNil

/-- Oracle for the run in which every step succeeds. -/
def allStepsSucceed : NegOracle :=
  ⟨false, false, false, false, false, false, false, false, false, false⟩

/-! ## Provider client payloads (src/pkg/whatsapp/call.go) -/

/-- Request body built by `Client.PreAcceptCall`
(call.go lines 17-34): the function takes no SDP argument and sends only
the product tag, the call ID and the `pre_accept` action. -/
def preAcceptCallPayload (callID : String) : List (String × String) :=
  [("messaging_product", "whatsapp"), ("call_id", callID),
    ("action", "pre_accept")]

/-- Request body built by `Client.AcceptCall` (call.go lines 37-55):
product tag, call ID, the `accept` action and the SDP answer. -/
def acceptCallPayload (callID sdpAnswer : String) : List (String × String) :=
  [("messaging_product", "whatsapp"), ("call_id", callID),
    ("action", "accept"), ("sdp", sdpAnswer)]

/-- Request body built by `Client.RejectCall` (call.go lines 58-75). -/
def rejectCallPayload (callID : String) : List (String × String) :=
  [("messaging_product", "whatsapp"), ("call_id", callID),
    ("action", "reject")]

/-! ## Transfer queue operations.  The handlers `PickNextTransfer` and
`CreateAgentTransfer` are exercised by the tests in src/unnamed/part_006
but their bodies are not in the available source; they are modelled from
the spec below. -/

/-- Row visibility for a pick: the row is a candidate when it is an
unassigned active transfer the agent may see (general queue, or a team
queue the agent belongs to — the scoping is abstracted into the
`visible` predicate). -/
def pickCandidate (visible : AgentTransfer → Bool) (t : AgentTransfer) :
    Bool :=
  t.status == AgentTransferStatus.active && t.agentID.isNone && visible t

/-- Oldest candidate of a list under `transferredAt`, ties broken towards
the earlier list position (insertion order). -/
def oldestCandidate : List AgentTransfer → Option AgentTransfer
  | [] => none
  | t :: rest =>
      match oldestCandidate rest with
      | none => some t
      | some u => if u.transferredAt < t.transferredAt then some u else some t

/-- Assignment of a picked row to an agent: only the row with the picked
ID changes, atomically with the selection (the spec requires the
selection and assignment to share one transaction). -/
def assignTransfer (q : List AgentTransfer) (transferID agentID : Nat) :
    List AgentTransfer :=
  q.map (fun t =>
    if t.tid == transferID then { t with agentID := some agentID } else t)

/-- Modelled from the spec: the body of handler `PickNextTransfer` is not
in the available source (only its tests are).  Per the spec, under a
queue-scoped transaction it selects the oldest unassigned active transfer
visible to the agent (earliest `transferred_at`, ties by insertion
order), assigns it to the agent atomically, and returns none when the
queue holds no candidate. -/
def PickNextTransfer (visible : AgentTransfer → Bool) (agentID : Nat)
    (q : List AgentTransfer) : Option AgentTransfer × List AgentTransfer :=
  match oldestCandidate (q.filter (pickCandidate visible)) with
  | none => (none, q)
  | some t =>
      (some { t with agentID := some agentID }, assignTransfer q t.tid agentID)

/-- Sequence of rows returned by `n` repeated `PickNextTransfer` calls by
one agent, stopping at the first empty-queue answer. -/
def pickRun (visible : AgentTransfer → Bool) (agentID : Nat) :
    Nat → List AgentTransfer → List AgentTransfer
  | 0, _ => []
  | n + 1, q =>
      match PickNextTransfer visible agentID q with
      | (none, _) => []
      | (some t, q2) => t :: pickRun visible agentID n q2

/-- Existing-active-transfer check for a contact inside an organization
(the duplicate guard the spec requires `CreateAgentTransfer` to run
before inserting). -/
def hasActiveTransfer (db : List AgentTransfer) (orgID contactID : Nat) :
    Bool :=
  db.any (fun t =>
    t.orgID == orgID && t.contactID == contactID &&
      t.status == AgentTransferStatus.active)

/-- Modelled from the spec: the body of handler `CreateAgentTransfer` is
not in the available source (only its tests are).  Per the spec and the
test expectations (part_006 lines 425-449), creating a transfer for a
contact that already has an active transfer in the organization fails
with a conflict carrying the message `Contact already has an active
transfer`; otherwise the row is inserted.  The check and the insert share
one transaction. -/
def CreateAgentTransfer (db : List AgentTransfer) (t : AgentTransfer) :
    Except String (List AgentTransfer) :=
  if hasActiveTransfer db t.orgID t.contactID then
    Except.error "Contact already has an active transfer"
  else Except.ok (db ++ [t])

/-- Invariant of the transfer table: no two rows are both active for the
same (organization, contact) pair. -/
def singleActiveInvariant (db : List AgentTransfer) : Prop :=
  db.Pairwise (fun a b =>
    ¬(a.status = AgentTransferStatus.active ∧
      b.status = AgentTransferStatus.active ∧
      a.orgID = b.orgID ∧ a.contactID = b.contactID))

/-- Packet expected at position `i` of the `PlayFile` output when the loop
started with counters `s` and `t` and the page at that position is
`page`. -/
def expectedPacket (s t i : Nat) (page : List Nat) : RTPPacket :=
  { version := 2
    payloadType := negotiatedOpusPayloadType
    sequenceNumber := (s + i) % 65536
    timestamp := (t + samplesPerFrame * i) % 4294967296
    ssrc := 1
    payload := page }

/-- Packet stream produced by the `PlayFile` loop from arbitrary counter
starting points: position `i` of the output is exactly position `i` of
the non-header pages, stamped with sequence number `s + i` modulo 2^16
and timestamp `t + 960 * i` modulo 2^32. -/
theorem playFileGo_spec (pages : List (List Nat)) : ∀ (s t : Nat),
    s < 65536 → t < 4294967296 → ∀ i,
    (playFileGo pages s t).get? i
      = ((pages.filter (fun p => !isOpusHeader p)).get? i).map
          (expectedPacket s t i) := by
  induction pages with
  | nil =>
      intro s t _ _ i
      simp [playFileGo]
  | cons page rest ih =>
      intro s t hs ht i
      by_cases hp : isOpusHeader page
      · simpa [playFileGo, hp] using ih s t hs ht i
      · have hs1 : (s + 1) % 65536 < 65536 := Nat.mod_lt _ (by norm_num)
        have ht1 : (t + samplesPerFrame) % 4294967296 < 4294967296 :=
          Nat.mod_lt _ (by norm_num)
        match i with
        | 0 =>
            simp [playFileGo, hp, List.filter_cons, expectedPacket,
              RTPPacket.mk.injEq, samplesPerFrame]
            omega
        | Nat.succ j =>
            have hrec := ih ((s + 1) % 65536) ((t + samplesPerFrame) % 4294967296)
              hs1 ht1 j
            simp only [playFileGo, hp, Bool.false_eq_true, if_false,
              List.filter_cons, Bool.not_false, if_true, List.get?_cons_succ]
            rw [hrec]
            cases hq : (rest.filter (fun p => !isOpusHeader p)).get? j with
            | none => simp
            | some q =>
                simp [expectedPacket, RTPPacket.mk.injEq, samplesPerFrame]
                omega

/-- C7: `AudioPlayer.PlayFile` on an OGG/Opus page stream skips the
`OpusHead`/`OpusTags` header pages (emitting no packet for them) and
emits every other page, in order, as an RTP packet whose 16-bit sequence
number starts at 0 and increases by exactly 1 per emitted packet, whose
timestamp advances by exactly 960 samples per emitted frame, and whose
payload type is the negotiated Opus payload type; the loop runs on a
fixed 20ms ticker (`playFileTickerMs`). -/
theorem c7_playFile_packets (pages : List (List Nat)) (i : Nat) :
    (PlayFile pages).get? i
      = ((pages.filter (fun p => !isOpusHeader p)).get? i).map
          (fun page =>
            { version := 2
              payloadType := negotiatedOpusPayloadType
              sequenceNumber := i % 65536
              timestamp := (960 * i) % 4294967296
              ssrc := 1
              payload := page }) ∧
    samplesPerFrame = 960 ∧ playFileTickerMs = 20 := by
  refine ⟨?_, rfl, rfl⟩
  have h := playFileGo_spec pages 0 0 (by norm_num) (by norm_num) i
  rw [PlayFile, h]
  cases hq : (pages.filter (fun p => !isOpusHeader p)).get? i with
  | none => simp
  | some q =>
      simp [expectedPacket, samplesPerFrame, RTPPacket.mk.injEq]

/-- C9: an accepted call permission with a response timestamp is reported
and persisted as expired once more than 72 hours have elapsed since the
response; within 72 hours it keeps status accepted and nothing is
written back. -/
theorem c9_permission_expiry (p : CallPermission) (now t : Int)
    (hacc : p.status = CallPermissionStatus.accepted)
    (hresp : p.respondedAt = some t) :
    (now - t > 72 * goHour →
      (GetCallPermission p now).1.status = CallPermissionStatus.expired ∧
      (GetCallPermission p now).2 = some CallPermissionStatus.expired) ∧
    (now - t ≤ 72 * goHour →
      (GetCallPermission p now).1.status = CallPermissionStatus.accepted ∧
      (GetCallPermission p now).2 = none) := by
  unfold GetCallPermission
  rw [hacc, hresp]
  simp only [if_pos rfl]
  constructor
  · intro h
    simp [if_pos h]
  · intro h
    simp [if_neg (not_lt.mpr h), hacc]

/-- Witness for C9: a permission accepted at time 0 is expired when queried
one nanosecond after the 72-hour mark, and still accepted exactly at it. -/
theorem c9_permission_expiry_witness :
    (GetCallPermission ⟨CallPermissionStatus.accepted, some 0⟩
        (72 * goHour + 1)).1.status = CallPermissionStatus.expired ∧
    (GetCallPermission ⟨CallPermissionStatus.accepted, some 0⟩
        (72 * goHour)).2 = none :=
  ⟨((c9_permission_expiry _ _ 0 rfl rfl).1 (by norm_num)).1,
    ((c9_permission_expiry _ _ 0 rfl rfl).2 (by norm_num)).2⟩

/-- Lookup of a key right after inserting it returns the inserted value
(Go map assignment semantics of the model). -/
theorem mapLookup_mapInsert {α : Type} (reg : List (String × α))
    (k : String) (v : α) : mapLookup (mapInsert reg k v) k = some v := by
  simp [mapInsert, mapLookup, List.find?]

/-- Lookup of a key right after deleting it finds nothing (Go map delete
semantics of the model). -/
theorem mapLookup_mapDelete {α : Type} (reg : List (String × α))
    (k : String) : mapLookup (mapDelete reg k) k = none := by
  induction reg with
  | nil => rfl
  | cons e rest ih =>
      by_cases he : e.1 = k
      · simp [mapDelete, List.filter_cons, he]
        exact ih
      · simp only [mapDelete, List.filter_cons] at ih ⊢
        simp only [bne, beq_iff_eq, he, not_false_eq_true, decide_eq_true_eq,
          if_true, decide_not, Bool.not_eq_false]
        simp [mapLookup, List.find?, he]

/-- Second sequential `cleanupSession` call for the same ID finds no
session and performs no teardown. -/
theorem cleanupSession_second_noop (reg : List (String × CallSession))
    (callID : String) :
    cleanupSession (cleanupSession reg callID).1 callID
      = ((cleanupSession reg callID).1, []) := by
  rcases h : mapLookup reg callID with _ | s
  · simp [cleanupSession, h]
  · simp [cleanupSession, h, mapLookup_mapDelete]

/-- One pass of `cleanupSession` closes the DTMF channel at most once. -/
theorem count_closeDTMF_cleanupActions (s : CallSession) :
    (cleanupActions s).count CleanupAction.closeDTMF ≤ 1 := by
  unfold cleanupActions
  simp [List.count_append, List.count_cons, apply_ite
    (List.count CleanupAction.closeDTMF)]
  split_ifs <;> simp

/-- C8 amended: a second sequential `Stop` on an AudioBridge/AudioPlayer
stop channel is a no-op — it never panics and the channel is closed at
most once — and a repeated `cleanupSession` for the same call ID is a
no-op that performs no teardown, so the DTMF channel is closed at most
once across both invocations (the registry lock serializes the
lookup-and-delete).  Concurrent `Stop` calls are NOT covered: see the
counterexample. -/
theorem c8_sequential_stop_idempotent (c : Bool)
    (reg : List (String × CallSession)) (callID : String) :
    (runTwoStops [true, true, false, false]
        { closed := c, closeCount := 0, panicked := false }
        StopPC.beforeSelect StopPC.beforeSelect).panicked = false ∧
    (runTwoStops [true, true, false, false]
        { closed := c, closeCount := 0, panicked := false }
        StopPC.beforeSelect StopPC.beforeSelect).closeCount ≤ 1 ∧
    cleanupSession (cleanupSession reg callID).1 callID
      = ((cleanupSession reg callID).1, []) ∧
    ((cleanupSession reg callID).2
        ++ (cleanupSession (cleanupSession reg callID).1 callID).2).count
      CleanupAction.closeDTMF ≤ 1 := by
  refine ⟨by cases c <;> decide, by cases c <;> decide,
    cleanupSession_second_noop reg callID, ?_⟩
  rw [cleanupSession_second_noop reg callID]
  simp only [List.append_nil]
  rcases h : mapLookup reg callID with _ | s
  · simp [cleanupSession, h]
  · simpa [cleanupSession, h] using count_closeDTMF_cleanupActions s

/-- Counterexample for C8: two concurrent `Stop` invocations on the same
freshly created stop channel can both pass the `select` check before
either closes, after which both attempt `close` — the second close hits
an already-closed channel and panics, refuting the claim for the
concurrent case. -/
theorem c8_concurrent_stop_counterexample :
    (runTwoStops [true, false, true, false] freshStopChannel
        StopPC.beforeSelect StopPC.beforeSelect).panicked = true := by
  decide

/-- C10: when `HandleIncomingCall` runs for a call ID that already has a
live session, the new session silently replaces the old one in the map —
afterwards the ID resolves to the fresh ringing session — while the
registry performs no teardown at all: the displaced session gets no
cleanup action, so its peer connections stay open and its DTMF channel is
never closed; negotiation is spawned exactly when an SDP offer is
present.  (The Go function has no error return, so no error can be
raised.) -/
theorem c10_incoming_call_replaces_session
    (reg : List (String × CallSession)) (callID : String)
    (old : CallSession) (callLogID : Nat) (ivrFlowAssigned : Bool)
    (sdpOffer : String) (_hold : mapLookup reg callID = some old) :
    mapLookup (HandleIncomingCall reg callID callLogID ivrFlowAssigned
        sdpOffer).1 callID
      = some (newIncomingSession callLogID ivrFlowAssigned) ∧
    (HandleIncomingCall reg callID callLogID ivrFlowAssigned sdpOffer).2.1
      = [] ∧
    (HandleIncomingCall reg callID callLogID ivrFlowAssigned sdpOffer).2.2
      = (sdpOffer != "") := by
  exact ⟨mapLookup_mapInsert reg callID _, rfl, rfl⟩

/-- Witness for C10 at a registry that holds a displaced session. -/
theorem c10_incoming_call_replaces_session_witness :
    mapLookup (HandleIncomingCall [("call-1", newIncomingSession 5 true)]
        "call-1" 6 false "v=0").1 "call-1" = some (newIncomingSession 6 false) :=
  (c10_incoming_call_replaces_session [("call-1", newIncomingSession 5 true)]
    "call-1" (newIncomingSession 5 true) 6 false "v=0" (by decide)).1

/-- C2, evaluated at the failing input: a session whose transfer is
waiting receives an `ended` event; the transfer is marked abandoned and
leaves the pickable queue, no bridge is started — but the handler then
panics, because `HandleCallEvent` explicitly unlocks the session mutex
before calling `HandleCallerHangupDuringTransfer` and the deferred
unlock fires a second time on the already-unlocked mutex. -/
theorem c2_abandoned_transfer_panics :
    (HandleCallEvent
        [("call-1",
          { callLogID := 1, status := CallStatus.answered,
            transferStatus := CallTransferStatus.waiting, transferID := 7,
            ivrFlowLoaded := false, dtmfBufferNonNil := true,
            bridgeSet := false, holdPlayerSet := true,
            transferCancelSet := false, agentPCSet := false,
            waPeerConnSet := false, peerConnectionSet := true })]
        [⟨7, 1, 2, AgentTransferStatus.active, none, none, 5⟩]
        "call-1" "ended").queue
      = [⟨7, 1, 2, AgentTransferStatus.abandoned, none, none, 5⟩] ∧
    ((HandleCallEvent
        [("call-1",
          { callLogID := 1, status := CallStatus.answered,
            transferStatus := CallTransferStatus.waiting, transferID := 7,
            ivrFlowLoaded := false, dtmfBufferNonNil := true,
            bridgeSet := false, holdPlayerSet := true,
            transferCancelSet := false, agentPCSet := false,
            waPeerConnSet := false, peerConnectionSet := true })]
        [⟨7, 1, 2, AgentTransferStatus.active, none, none, 5⟩]
        "call-1" "ended").queue.filter
          (pickCandidate (fun _ => true))) = [] ∧
    (HandleCallEvent
        [("call-1",
          { callLogID := 1, status := CallStatus.answered,
            transferStatus := CallTransferStatus.waiting, transferID := 7,
            ivrFlowLoaded := false, dtmfBufferNonNil := true,
            bridgeSet := false, holdPlayerSet := true,
            transferCancelSet := false, agentPCSet := false,
            waPeerConnSet := false, peerConnectionSet := true })]
        [⟨7, 1, 2, AgentTransferStatus.active, none, none, 5⟩]
        "call-1" "ended").startedBridge = false ∧
    (HandleCallEvent
        [("call-1",
          { callLogID := 1, status := CallStatus.answered,
            transferStatus := CallTransferStatus.waiting, transferID := 7,
            ivrFlowLoaded := false, dtmfBufferNonNil := true,
            bridgeSet := false, holdPlayerSet := true,
            transferCancelSet := false, agentPCSet := false,
            waPeerConnSet := false, peerConnectionSet := true })]
        [⟨7, 1, 2, AgentTransferStatus.active, none, none, 5⟩]
        "call-1" "ended").panicked = true := by
  decide

/-- Counterexample for C5: a `missed` event delivered to `HandleCallEvent`
for a registered ringing session sets the in-memory status to completed,
not to missed — the handler treats `ended`, `missed` and `unanswered`
identically. -/
theorem c5_session_status_counterexample :
    mapLookup (HandleCallEvent [("call-9", newIncomingSession 1 false)] []
        "call-9" "missed").sessions "call-9"
      = some { newIncomingSession 1 false with status := CallStatus.completed }
      ∧
    ¬ mapLookup (HandleCallEvent [("call-9", newIncomingSession 1 false)] []
        "call-9" "missed").sessions "call-9"
      = some { newIncomingSession 1 false with status := CallStatus.missed }
      := by
  decide

/-- C5 amended: an external `missed` or `unanswered` event moves the
persisted CallLog to the missed terminal state (with `ended_at` set) and
does not notify the call manager; the registered in-memory session, when
the event reaches `HandleCallEvent` with no waiting/connected transfer,
has its status set to completed rather than missed. -/
theorem c5_missed_event_handling (l : CallLogRec) (now : Int)
    (reg : List (String × CallSession)) (q : List AgentTransfer)
    (callID : String) (s : CallSession)
    (hs : mapLookup reg callID = some s)
    (hnw : s.transferStatus ≠ CallTransferStatus.waiting)
    (hnc : s.transferStatus ≠ CallTransferStatus.connected) :
    (processCallWebhook "missed" (some l) now false).1
      = some { l with status := CallStatus.missed, endedAt := some now } ∧
    (processCallWebhook "unanswered" (some l) now false).1
      = some { l with status := CallStatus.missed, endedAt := some now } ∧
    (processCallWebhook "missed" (some l) now false).2 = false ∧
    (HandleCallEvent reg q callID "missed").sessions
      = mapInsert reg callID { s with status := CallStatus.completed } ∧
    (HandleCallEvent reg q callID "missed").panicked = false := by
  refine ⟨rfl, rfl, rfl, ?_, ?_⟩ <;>
    simp [HandleCallEvent, hs, hnw, hnc]

/-- Witness for C5 amended at a concrete log, session and clock. -/
theorem c5_missed_event_handling_witness :
    (processCallWebhook "missed"
        (some { status := CallStatus.ringing, startedAt := some 0,
                answeredAt := none, endedAt := none, duration := 0 })
        50 false).1
      = some { status := CallStatus.missed, startedAt := some 0,
               answeredAt := none, endedAt := some 50, duration := 0 } ∧
    (HandleCallEvent [("c", newIncomingSession 3 false)] [] "c"
        "missed").sessions
      = mapInsert [("c", newIncomingSession 3 false)] "c"
          { newIncomingSession 3 false with status := CallStatus.completed } :=
  ⟨(c5_missed_event_handling _ 50 [("c", newIncomingSession 3 false)] [] "c"
      (newIncomingSession 3 false) (by decide) (by decide) (by decide)).1,
    (c5_missed_event_handling
      { status := CallStatus.ringing, startedAt := some 0,
        answeredAt := none, endedAt := none, duration := 0 }
      50 [("c", newIncomingSession 3 false)] [] "c"
      (newIncomingSession 3 false) (by decide) (by decide) (by decide)).2.2.2.1⟩

/-- Counterexample for C1: when the `AcceptCall` provider call fails
after a successful pre-accept, `negotiateWebRTC` sends neither reject
nor terminate, does not remove the session from the registry, and the
call is left with pre-accept delivered but never accepted or rejected. -/
theorem c1_accept_failure_counterexample :
    ProviderCall.reject ∉
      (negotiateWebRTC { allStepsSucceed with acceptFails := true }
        true).calls ∧
    ProviderCall.terminate ∉
      (negotiateWebRTC { allStepsSucceed with acceptFails := true }
        true).calls ∧
    (negotiateWebRTC { allStepsSucceed with acceptFails := true }
        true).cleanupInvoked = false ∧
    (negotiateWebRTC { allStepsSucceed with acceptFails := true }
        true).statusAfter = none := by
  decide

set_option maxHeartbeats 2000000 in
/-- C1 amended: a failure at pre-accept or at any later step before the
provider accept call makes `negotiateWebRTC` send an explicit reject; a
failure of the accept call itself only logs and returns, sending neither
reject nor terminate; and no path of `negotiateWebRTC` removes the
session from the registry (cleanup is left to connection-state callbacks
and call-ended events). -/
theorem c1_negotiation_failure_handling (o : NegOracle)
    (hasIVRFlow : Bool) :
    (negotiateWebRTC o hasIVRFlow).cleanupInvoked = false ∧
    ProviderCall.terminate ∉ (negotiateWebRTC o hasIVRFlow).calls ∧
    (ProviderCall.reject ∈ (negotiateWebRTC o hasIVRFlow).calls
      ↔ failedBeforeAccept o = true) ∧
    (failedBeforeAccept o = false → o.acceptFails = true →
      (negotiateWebRTC o hasIVRFlow).calls
          = [ProviderCall.preAccept, ProviderCall.accept] ∧
      (negotiateWebRTC o hasIVRFlow).statusAfter = none) := by
  obtain ⟨a, b, c, d, e, f, g, h, i, j⟩ := o
  simp only [negotiateWebRTC, failedBeforeAccept]
  split_ifs <;> simp_all

/-- Witness for C1 amended: a remote-description failure leads to a
reject being sent. -/
theorem c1_negotiation_failure_handling_witness :
    ProviderCall.reject ∈
      (negotiateWebRTC { allStepsSucceed with setRemoteFails := true }
        false).calls :=
  (c1_negotiation_failure_handling
    { allStepsSucceed with setRemoteFails := true } false).2.2.1.mpr
    (by decide)

/-- Counterexample for C6: the `PreAcceptCall` client call takes no SDP
argument and its request body carries no `sdp` field at all, so
pre-accept does not transmit the SDP answer that `AcceptCall` later
sends. -/
theorem c6_preaccept_no_sdp_counterexample :
    (preAcceptCallPayload "call-1").lookup "sdp" = none ∧
    (acceptCallPayload "call-1" "v=0 answer").lookup "sdp"
      = some "v=0 answer" := by
  decide

/-- C6 amended: the provider handshake sends pre-accept carrying only the
product tag, the call ID and the `pre_accept` action — no SDP — and then
accept carrying the SDP answer; a fully successful negotiation issues
exactly the pre-accept call followed by the accept call. -/
theorem c6_handshake_payloads (callID sdpAnswer : String) :
    (preAcceptCallPayload callID).lookup "action" = some "pre_accept" ∧
    (preAcceptCallPayload callID).lookup "sdp" = none ∧
    (acceptCallPayload callID sdpAnswer).lookup "action" = some "accept" ∧
    (acceptCallPayload callID sdpAnswer).lookup "sdp" = some sdpAnswer ∧
    (negotiateWebRTC allStepsSucceed false).calls
      = [ProviderCall.preAccept, ProviderCall.accept] := by
  exact ⟨rfl, rfl, rfl, rfl, rfl⟩

/-- Membership of the row returned by `oldestCandidate`. -/
theorem oldestCandidate_mem :
    ∀ {l : List AgentTransfer} {t : AgentTransfer},
    oldestCandidate l = some t → t ∈ l := by
  intro l
  induction l with
  | nil => intro t h; simp [oldestCandidate] at h
  | cons x xs ih =>
      intro t h
      cases hx : oldestCandidate xs with
      | none =>
          simp only [oldestCandidate, hx] at h
          cases h
          exact List.mem_cons_self x xs
      | some u =>
          simp only [oldestCandidate, hx] at h
          by_cases hlt : u.transferredAt < x.transferredAt
          · rw [if_pos hlt] at h
            cases h
            exact List.mem_cons_of_mem x (ih hx)
          · rw [if_neg hlt] at h
            cases h
            exact List.mem_cons_self x xs

/-- First element of a strictly increasing list is below every later
element. -/
theorem chain'_head_lt :
    ∀ (rest : List AgentTransfer) (t : AgentTransfer),
    List.Chain' (fun a b => a.transferredAt < b.transferredAt) (t :: rest) →
    ∀ u ∈ rest, t.transferredAt < u.transferredAt := by
  intro rest
  induction rest with
  | nil => intro t _ u hu; simp at hu
  | cons v vs ih =>
      intro t hch u hu
      rw [List.chain'_cons] at hch
      rcases List.mem_cons.mp hu with hv | hvs
      · subst hv; exact hch.1
      · exact lt_trans hch.1 (ih v hch.2 u hvs)

/-- On a strictly increasing candidate list the oldest candidate is the
head. -/
theorem oldestCandidate_chain' (t : AgentTransfer)
    (rest : List AgentTransfer)
    (hch : List.Chain' (fun a b => a.transferredAt < b.transferredAt)
      (t :: rest)) :
    oldestCandidate (t :: rest) = some t := by
  cases hx : oldestCandidate rest with
  | none => simp [oldestCandidate, hx]
  | some u =>
      have hu := oldestCandidate_mem hx
      have hnlt : ¬ u.transferredAt < t.transferredAt := by
        have := chain'_head_lt rest t hch u hu; omega
      simp only [oldestCandidate, hx]
      rw [if_neg hnlt]

/-- Assigning a transfer ID that occurs nowhere in the queue changes
nothing. -/
theorem assignTransfer_of_not_mem (q : List AgentTransfer) (i a : Nat)
    (h : i ∉ q.map AgentTransfer.tid) : assignTransfer q i a = q := by
  induction q with
  | nil => rfl
  | cons x xs ih =>
      simp only [List.map_cons, List.mem_cons, not_or] at h
      have hx : (x.tid == i) = false := by
        simp only [beq_eq_false_iff_ne]
        exact fun hEq => h.1 hEq.symm
      simp only [assignTransfer, List.map_cons, hx, Bool.false_eq_true,
        if_false, List.cons.injEq, true_and]
      exact ih h.2

/-- Assignment never changes the transfer IDs of the queue. -/
theorem assignTransfer_map_tid (q : List AgentTransfer) (i a : Nat) :
    (assignTransfer q i a).map AgentTransfer.tid
      = q.map AgentTransfer.tid := by
  induction q with
  | nil => rfl
  | cons x xs ih =>
      simp only [assignTransfer, List.map_cons] at ih ⊢
      rw [ih]
      by_cases hx : (x.tid == i) = true
      · simp [hx, beq_iff_eq.mp hx]
      · simp [hx]

/-- An assigned row is no longer a pick candidate. -/
theorem pickCandidate_assigned (visible : AgentTransfer → Bool)
    (t : AgentTransfer) (a : Nat) :
    pickCandidate visible { t with agentID := some a } = false := by
  simp [pickCandidate]

/-- Unfolding of `assignTransfer` on a cons cell. -/
theorem assignTransfer_cons (x : AgentTransfer) (xs : List AgentTransfer)
    (i a : Nat) :
    assignTransfer (x :: xs) i a
      = (if x.tid == i then { x with agentID := some a } else x)
          :: assignTransfer xs i a := rfl

/-- Assigning the head candidate removes exactly it from the candidate
list. -/
theorem filter_assignTransfer (visible : AgentTransfer → Bool) (a : Nat) :
    ∀ (q : List AgentTransfer) (t0 : AgentTransfer)
      (ctail : List AgentTransfer),
    (q.map AgentTransfer.tid).Nodup →
    q.filter (pickCandidate visible) = t0 :: ctail →
    (assignTransfer q t0.tid a).filter (pickCandidate visible) = ctail := by
  intro q
  induction q with
  | nil => intro t0 ctail _ hf; simp at hf
  | cons x xs ih =>
      intro t0 ctail hnd hf
      simp only [List.map_cons, List.nodup_cons] at hnd
      by_cases hx : pickCandidate visible x = true
      · rw [List.filter_cons_of_pos hx] at hf
        injection hf with hx0 hctail
        subst hx0
        rw [assignTransfer_cons, if_pos (beq_self_eq_true x.tid),
          assignTransfer_of_not_mem xs x.tid a hnd.1,
          List.filter_cons_of_neg (by simp [pickCandidate_assigned])]
        exact hctail
      · rw [List.filter_cons_of_neg hx] at hf
        have ht0 : t0 ∈ xs := by
          have hmem : t0 ∈ xs.filter (pickCandidate visible) := by
            rw [hf]; exact List.mem_cons_self t0 ctail
          exact List.mem_of_mem_filter hmem
        have htid : t0.tid ∈ xs.map AgentTransfer.tid :=
          List.mem_map_of_mem AgentTransfer.tid ht0
        have hne : (x.tid == t0.tid) = false := by
          simp only [beq_eq_false_iff_ne]
          exact fun hEq => hnd.1 (hEq ▸ htid)
        rw [assignTransfer_cons, if_neg (by simp [hne]),
          List.filter_cons_of_neg hx]
        exact ih t0 ctail hnd.2 hf

/-- Repeated picks against a queue whose candidate list is strictly
increasing in `transferred_at` return exactly the candidate list in
order, each row assigned to the picking agent. -/
theorem pickRun_eq (visible : AgentTransfer → Bool) (a : Nat) :
    ∀ (c q : List AgentTransfer),
    q.filter (pickCandidate visible) = c →
    List.Chain' (fun x y => x.transferredAt < y.transferredAt) c →
    (q.map AgentTransfer.tid).Nodup →
    pickRun visible a c.length q
      = c.map (fun t => { t with agentID := some a }) := by
  intro c
  induction c with
  | nil => intro q _ _ _; simp [pickRun]
  | cons t0 ctail ih =>
      intro q hf hch hnd
      have hoc : oldestCandidate (q.filter (pickCandidate visible))
          = some t0 := by
        rw [hf]; exact oldestCandidate_chain' t0 ctail hch
      simp only [List.length_cons, pickRun, PickNextTransfer, hoc,
        List.map_cons]
      refine congrArg _ ?_
      exact ih (assignTransfer q t0.tid a)
        (filter_assignTransfer visible a q t0 ctail hnd hf)
        hch.tail
        (by rw [assignTransfer_map_tid]; exact hnd)

/-- C3: for every queue whose visible active unassigned transfers have
strictly increasing `transferred_at` (and distinct row IDs, as in the
database), repeated `PickNextTransfer` calls return exactly those
transfers in ascending `transferred_at` order, each atomically assigned
to the picking agent; and a pick against an empty queue returns no
transfer. -/
theorem c3_pick_fifo (visible : AgentTransfer → Bool) (agentID : Nat)
    (q : List AgentTransfer)
    (hch : List.Chain' (fun x y => x.transferredAt < y.transferredAt)
      (q.filter (pickCandidate visible)))
    (hnd : (q.map AgentTransfer.tid).Nodup) :
    pickRun visible agentID (q.filter (pickCandidate visible)).length q
      = (q.filter (pickCandidate visible)).map
          (fun t => { t with agentID := some agentID }) ∧
    PickNextTransfer visible agentID [] = (none, []) :=
  ⟨pickRun_eq visible agentID _ q rfl hch hnd, rfl⟩

/-- Witness for C3: two transfers queued at times 10 and 20 are picked in
that order and assigned to agent 9, and the empty queue yields none. -/
theorem c3_pick_fifo_witness :
    pickRun (fun _ => true) 9
        (([⟨1, 1, 1, AgentTransferStatus.active, none, none, 10⟩,
           ⟨2, 1, 2, AgentTransferStatus.active, none, none, 20⟩].filter
            (pickCandidate (fun _ => true))).length)
        [⟨1, 1, 1, AgentTransferStatus.active, none, none, 10⟩,
         ⟨2, 1, 2, AgentTransferStatus.active, none, none, 20⟩]
      = ([⟨1, 1, 1, AgentTransferStatus.active, none, none, 10⟩,
          ⟨2, 1, 2, AgentTransferStatus.active, none, none, 20⟩].filter
            (pickCandidate (fun _ => true))).map
          (fun t => { t with agentID := some 9 }) ∧
    PickNextTransfer (fun _ => true) 9 [] = (none, []) :=
  c3_pick_fifo (fun _ => true) 9
    [⟨1, 1, 1, AgentTransferStatus.active, none, none, 10⟩,
     ⟨2, 1, 2, AgentTransferStatus.active, none, none, 20⟩]
    (by simp [pickCandidate, List.chain'_cons, List.chain'_singleton])
    (by decide)

/-- C4: creating a transfer for a contact that already has an active
transfer in the organization fails with the conflict error the tests
expect, and a successful creation preserves the invariant that at most
one active transfer exists per (organization, contact) pair. -/
theorem c4_single_active_transfer (db : List AgentTransfer)
    (t : AgentTransfer) :
    (hasActiveTransfer db t.orgID t.contactID = true →
      CreateAgentTransfer db t
        = Except.error "Contact already has an active transfer") ∧
    (singleActiveInvariant db →
      ∀ db2, CreateAgentTransfer db t = Except.ok db2 →
        singleActiveInvariant db2) := by
  constructor
  · intro h
    simp [CreateAgentTransfer, h]
  · intro hinv db2 hok
    unfold CreateAgentTransfer at hok
    by_cases h : hasActiveTransfer db t.orgID t.contactID = true
    · rw [if_pos h] at hok
      cases hok
    · rw [if_neg h] at hok
      injection hok with hdb2
      subst hdb2
      rw [singleActiveInvariant, List.pairwise_append]
      refine ⟨hinv, List.pairwise_singleton _ t, ?_⟩
      intro a ha b hb
      rw [List.mem_singleton] at hb
      subst hb
      rintro ⟨hact, htact, horg, hcon⟩
      apply h
      rw [hasActiveTransfer, List.any_eq_true]
      exact ⟨a, ha, by simp [hact, horg.symm, hcon.symm]⟩

/-- Witness for C4: with one active transfer for contact 2 of
organization 1 in the table, creating a second active transfer for the
same contact is rejected with the conflict message; and creation into a
table holding only an unrelated contact preserves the invariant. -/
theorem c4_single_active_transfer_witness :
    CreateAgentTransfer
        [⟨1, 1, 2, AgentTransferStatus.active, none, none, 10⟩]
        ⟨5, 1, 2, AgentTransferStatus.active, none, none, 30⟩
      = Except.error "Contact already has an active transfer" :=
  (c4_single_active_transfer
    [⟨1, 1, 2, AgentTransferStatus.active, none, none, 10⟩]
    ⟨5, 1, 2, AgentTransferStatus.active, none, none, 30⟩).1 (by decide)

end Whatomate
